import Mathlib

/-!
Verification of the remote-command lifecycle manager in `src/remcmd.py`
(class `RemoteCommand`).

The transport collaborator (Fabric's `Connection`) is out of scope per the
spec; it is modelled as an oracle from the submitted command text and the
hide flag to an outcome, following the collaborator contract of spec section 6:
`Execute(commandText, hideOutput) -> {combinedOutput, ok, exitStatus} | TransportError`.
All class logic (`run`, `get_pid`, `get_output`, `get_exit_code`, `terminate`)
is embedded from the Python source, statement by statement, including which
exception each path raises and which fields each path mutates.
-/

/-- Fabric's `Result` as consumed by the source: captured standard output,
standard error, the `ok` success flag, and the numeric `return_code`. -/
structure RunResult where
  stdout : String
  stderr : String
  ok : Bool
  return_code : Int
deriving DecidableEq

/-- Outcome of one collaborator execution: a transport fault (the
`ssh_exception.SSHException` / `UnexpectedExit` branch, carrying `str(e)`)
or a completed run with a `RunResult`. -/
inductive ExecOutcome where
  | fault (msg : String)
  | done (r : RunResult)
deriving DecidableEq

/-- The session collaborator: maps (submitted command text, hide flag) to an
outcome.  `self.client.run(text, hide=True)` is modelled as `sess text true`. -/
def SessionExec : Type := String → Bool → ExecOutcome

/-- The state of a `RemoteCommand` object: the four constructor fields, plus
`self.result` (set by `run`) and `self.kill` (set by `terminate`), both
initialized to `None` in `__init__`. -/
structure RemoteCommand where
  command : String
  ssh_host : String
  ssh_user : String
  ssh_password : Option String
  result : Option RunResult
  kill : Option RunResult
deriving DecidableEq

/-- The exceptions the Python methods can raise: `RemoteCommandException`
(with an optional preserved context chain, controlled by the `debug` flag),
`AttributeError` (attribute access on `None`), `ValueError` (from `int(...)`),
and `TypeError` (from concatenating `str` and `int`). -/
inductive PyError where
  | remoteCommandException (msg : String) (ctx : Option String)
  | attributeError (msg : String)
  | valueError (msg : String)
  | typeError (msg : String)
deriving DecidableEq

deriving instance DecidableEq for Except

/-- The two module-level globals of `remcmd.py`: `debug` (preserve the
exception context chain) and `print_statistic` (narrate progress). -/
structure Flags where
  debug : Bool
  print_statistic : Bool
deriving DecidableEq

/-- Result of running one method: the object state afterwards, the lines
printed to the console, and the returned value or raised exception. -/
structure OpResult (α : Type) where
  state : RemoteCommand
  log : List String
  ret : Except PyError α

/-- Python's `s.split('\x5cn')` as used on `self.result.stdout`: split the
string on the newline character (always nonempty; `"".split('\x5cn') = [""]`,
matching Lean's `String.split`). -/
def pySplitLines ( s : String) : List String :=
  s.split (fun c => c == '\n')

/-- Value of the decimal digit list, most significant first. -/
def digitsToNat (ds : List Char) : Nat :=
  ds.foldl (fun n c => n * 10 + (c.toNat - 48)) 0

/-- Python's `int(s)`: strip surrounding whitespace, allow one optional sign,
then require a nonempty run of ASCII decimal digits; `none` models the
`ValueError` raise.  (Underscore digit grouping and non-ASCII digits are not
modelled.) -/
def pyInt ( s : String) : Option Int :=
  let t := ((s.data.dropWhile Char.isWhitespace).reverse.dropWhile Char.isWhitespace).reverse
  match t with
  | [] => none
  | '+' :: ds => if ds ≠ [] ∧ ds.all Char.isDigit then some (digitsToNat ds : Int) else none
  | '-' :: ds => if ds ≠ [] ∧ ds.all Char.isDigit then some (-(digitsToNat ds : Int)) else none
  | ds => if ds.all Char.isDigit then some (digitsToNat ds : Int) else none

/-- A Python value appearing as the right operand of a `+` whose left operand
is a `str`. -/
inductive PyVal where
  | str ( s : String)
  | int (n : Int)

/-- Python string concatenation `a + b` with `a : str`: raises `TypeError`
unless `b` is also a `str` (source line 155 concatenates
`self.kill.return_code`, an `int`, without `str(...)`). -/
def pyStrAdd (a : String) : PyVal → Except PyError String
  | .str b => .ok (a ++ b)
  | .int _ => .error (.typeError "can only concatenate str, not int, to str")

/-- The message of the `AttributeError` raised when a method reads
`self.result.stdout` (or `.return_code`) while `self.result` is `None`. -/
def noneAttr : String := "NoneType object has no attribute of Result"

/-- `RemoteCommand.__init__`: store the four fields, create the connection
(collaborator concern, no I/O here), set `self.result = None` and
`self.kill = None`, and narrate when `print_statistic` is on. -/
def RemoteCommand.init (f : Flags) (command ssh_host ssh_user : String)
    (ssh_password : Option String) : RemoteCommand × List String :=
  (⟨command, ssh_host, ssh_user, ssh_password, none, none⟩,
   if f.print_statistic then
     ["Connect to host: " ++ ssh_host ++ "\nWith user: " ++ ssh_user]
   else [])

/-- `RemoteCommand.run`: submit `self.command + " & echo $!"` with
`hide=True`; store the result in `self.result`; translate a transport fault
into `RemoteCommandException(str(e))` (context kept only under `debug`);
raise `RemoteCommandException(self.result.stderr)` when the completed result
is not `ok`.  Note the assignment to `self.result` happens before the `ok`
check, and does not happen at all on a transport fault. -/
def RemoteCommand.run (sess : SessionExec) (f : Flags) (rc : RemoteCommand) :
    OpResult Unit :=
  let log0 := if f.print_statistic then ["Run command: " ++ rc.command] else []
  match sess (rc.command ++ " & echo $!") true with
  | .fault msg =>
      { state := rc, log := log0,
        ret := .error (.remoteCommandException msg (if f.debug then some msg else none)) }
  | .done r =>
      if r.ok then
        { state := { rc with result := some r }, log := log0, ret := .ok () }
      else
        { state := { rc with result := some r }, log := log0,
          ret := .error (.remoteCommandException r.stderr none) }

/-- `RemoteCommand.get_pid`: `int(self.result.stdout.split('\x5cn')[0])`.
When `self.result` is `None` the attribute access raises `AttributeError`
(also inside the narration print, so the error is the same either way);
when line 1 is not an integer literal, `int` raises `ValueError`. -/
def RemoteCommand.get_pid (f : Flags) (rc : RemoteCommand) : OpResult Int :=
  match rc.result with
  | none => { state := rc, log := [], ret := .error (.attributeError noneAttr) }
  | some r =>
      let line := (pySplitLines r.stdout).headD ""
      let log0 := if f.print_statistic then ["PID of process: " ++ line] else []
      match pyInt line with
      | some n => { state := rc, log := log0, ret := .ok n }
      | none =>
          { state := rc, log := log0,
            ret := .error (.valueError ("invalid literal for int with base 10: " ++ line)) }

/-- `RemoteCommand.get_output`: rejoin all lines of `self.result.stdout`
except line 1 with newlines; `AttributeError` when `self.result` is `None`. -/
def RemoteCommand.get_output (f : Flags) (rc : RemoteCommand) : OpResult String :=
  match rc.result with
  | none => { state := rc, log := [], ret := .error (.attributeError noneAttr) }
  | some r =>
      let out := String.intercalate "\n" ((pySplitLines r.stdout).drop 1)
      { state := rc,
        log := if f.print_statistic then ["Execution output: " ++ out] else [],
        ret := .ok out }

/-- `RemoteCommand.get_exit_code`: return `self.result.return_code`;
`AttributeError` when `self.result` is `None`. -/
def RemoteCommand.get_exit_code (f : Flags) (rc : RemoteCommand) : OpResult Int :=
  match rc.result with
  | none => { state := rc, log := [], ret := .error (.attributeError noneAttr) }
  | some r =>
      { state := rc,
        log := if f.print_statistic then ["Result code: " ++ toString r.return_code] else [],
        ret := .ok r.return_code }

/-- `RemoteCommand.terminate`: `pid = self.get_pid()` (outside the `try`, so
its `AttributeError` / `ValueError` propagate untranslated and no kill is
issued); then `self.kill = self.client.run("kill " + str(pid), hide=True)`;
a transport fault becomes `RemoteCommandException(str(e))`; when the kill
completed but is not `ok`, the raise carries `self.result.stderr` — the
original run's standard error, not the kill's (source line 153); on the
success path with `print_statistic` on, source line 155 concatenates the
string literal with `self.kill.return_code` (an `int`), raising `TypeError`. -/
def RemoteCommand.terminate (sess : SessionExec) (f : Flags) (rc : RemoteCommand) :
    OpResult Unit :=
  let pidRes := rc.get_pid f
  match pidRes.ret with
  | .error e => { state := rc, log := pidRes.log, ret := .error e }
  | .ok pid =>
      match sess ("kill " ++ toString pid) true with
      | .fault msg =>
          { state := rc, log := pidRes.log,
            ret := .error (.remoteCommandException msg (if f.debug then some msg else none)) }
      | .done k =>
          let rc2 := { rc with kill := some k }
          if !k.ok then
            { state := rc2, log := pidRes.log,
              ret := .error (.remoteCommandException
                ((rc.result.map RunResult.stderr).getD "") none) }
          else
            if f.print_statistic then
              match pyStrAdd ("Process with " ++ toString pid ++ " was killed with status ")
                  (.int k.return_code) with
              | .ok msg => { state := rc2, log := pidRes.log ++ [msg], ret := .ok () }
              | .error e => { state := rc2, log := pidRes.log, ret := .error e }
            else
              { state := rc2, log := pidRes.log, ret := .ok () }

/-- Flattening the separator-interspersed lists prepends the head and a
separator copy before each later chunk. -/
theorem intersperse_flatten (sep a : List Char) (as : List (List Char)) :
    (List.intersperse sep (a :: as)).flatten = a ++ (as.map (fun x => sep ++ x)).flatten := by
  induction as generalizing a with
  | nil => simp
  | cons b bs ih => simp [List.intersperse, ih, List.append_assoc]

/-- `String.intercalate` agrees with `List.intercalate` on the underlying
character lists. -/
theorem str_intercalate_data (sep : String) (l : List String) :
    (String.intercalate sep l).data = List.intercalate sep.data (l.map String.data) := by
  cases l with
  | nil => rfl
  | cons a as =>
    suffices h : ∀ (as : List String) (acc : String),
        (String.intercalate.go acc sep as).data =
          acc.data ++ (as.map (fun x => sep.data ++ x.data)).flatten by
      rw [String.intercalate, h]
      simp [List.intercalate, intersperse_flatten, List.map_map]
      rfl
    intro as
    induction as with
    | nil => intro acc; simp [String.intercalate.go]
    | cons b bs ih => intro acc; rw [String.intercalate.go, ih]; simp

/-- Rejoining the newline-split of a string with newlines recovers the
string. -/
theorem intercalate_split ( s : String) :
    String.intercalate "\n" (s.split (fun c => c == '\n')) = s := by
  apply String.ext
  rw [String.split_of_valid, str_intercalate_data]
  simp only [List.map_map]
  have h : String.data ∘ String.mk = id := rfl
  rw [h, List.map_id]
  exact @List.intercalate_splitOn Char s.data '\n' _

/-- Splitting `a ++ "\x5cn" ++ b` on newlines yields `a` followed by the
split of `b`, provided `a` itself has no newline. -/
theorem split_first (a b : String) (h : '\n' ∉ a.data) :
    (a ++ "\n" ++ b).split (fun c => c == '\n') = a :: b.split (fun c => c == '\n') := by
  rw [String.split_of_valid, String.split_of_valid]
  have hd : (a ++ "\n" ++ b).data = a.data ++ '\n' :: b.data := by
    simp [String.data_append]
  rw [hd, List.splitOnP_first _ _ (fun x hx => by simp; rintro rfl; exact h hx) '\n' (by simp)]
  simp

/-- Intercalating a nonempty tail after a head inserts one separator copy
between the head and the rejoined tail. -/
theorem intercalate_cons (a : String) (l : List String) (h : l ≠ []) :
    String.intercalate "\n" (a :: l) = a ++ "\n" ++ String.intercalate "\n" l := by
  apply String.ext
  simp only [String.data_append, str_intercalate_data]
  obtain ⟨b, t, rfl⟩ := List.exists_cons_of_ne_nil h
  simp only [List.map_cons, List.intercalate, intersperse_flatten]
  simp


/-- Whether a method outcome is a raised `RemoteCommandException` (the single
domain exception class of the source; the spec's `ExecutionError` and
`TerminationError` both map to it). -/
def isRemoteCommandException {α : Type} : Except PyError α → Bool
  | .error (.remoteCommandException _ _) => true
  | _ => false

/-- Reduction of `terminate` when `get_pid` raises: the error propagates
untranslated and the state is untouched. -/
theorem term_pid_error (sess : SessionExec) (f : Flags) (rc : RemoteCommand)
    (e : PyError) (h : (rc.get_pid f).ret = .error e) :
    rc.terminate sess f = { state := rc, log := (rc.get_pid f).log, ret := .error e } := by
  unfold RemoteCommand.terminate
  simp only [h]

/-- Reduction of `terminate` when the kill completed with non-success: the
raise carries the stored run result's standard error. -/
theorem term_kill_not_ok (sess : SessionExec) (f : Flags) (rc : RemoteCommand)
    (pid : Int) (k : RunResult) (h : (rc.get_pid f).ret = .ok pid)
    (hk : sess ("kill " ++ toString pid) true = .done k) (hko : k.ok = false) :
    rc.terminate sess f =
      { state := { rc with kill := some k }, log := (rc.get_pid f).log,
        ret := .error (.remoteCommandException
          ((rc.result.map RunResult.stderr).getD "") none) } := by
  unfold RemoteCommand.terminate
  simp only [h, hk, hko]
  simp

/-- Reduction of `terminate` when the kill completed with success: silent
mode returns normally, narration mode raises `TypeError` from the
str-plus-int concatenation at source line 155. -/
theorem term_kill_ok (sess : SessionExec) (f : Flags) (rc : RemoteCommand)
    (pid : Int) (k : RunResult) (h : (rc.get_pid f).ret = .ok pid)
    (hk : sess ("kill " ++ toString pid) true = .done k) (hko : k.ok = true) :
    rc.terminate sess f =
      if f.print_statistic then
        { state := { rc with kill := some k }, log := (rc.get_pid f).log,
          ret := .error (.typeError "can only concatenate str, not int, to str") }
      else
        { state := { rc with kill := some k }, log := (rc.get_pid f).log,
          ret := .ok () } := by
  unfold RemoteCommand.terminate
  simp only [h, hk, hko]
  cases hps : f.print_statistic <;> simp [hps, pyStrAdd]

/-- Reduction of `terminate` on a transport fault during the kill. -/
theorem term_fault (sess : SessionExec) (f : Flags) (rc : RemoteCommand)
    (pid : Int) (m : String) (h : (rc.get_pid f).ret = .ok pid)
    (hk : sess ("kill " ++ toString pid) true = .fault m) :
    rc.terminate sess f =
      { state := rc, log := (rc.get_pid f).log,
        ret := .error (.remoteCommandException m (if f.debug then some m else none)) } := by
  unfold RemoteCommand.terminate
  simp only [h, hk]

/-- Reduction of `run` on a transport fault: state untouched, fault message
re-raised as `RemoteCommandException`, context kept only under `debug`. -/
theorem run_fault_eq (sess : SessionExec) (f : Flags) (rc : RemoteCommand)
    (m : String) (h : sess (rc.command ++ " & echo $!") true = .fault m) :
    rc.run sess f =
      { state := rc,
        log := if f.print_statistic then ["Run command: " ++ rc.command] else [],
        ret := .error (.remoteCommandException m (if f.debug then some m else none)) } := by
  unfold RemoteCommand.run
  simp only [h]

/-- Reduction of `run` on a completed execution: the result is stored either
way; non-success raises with the captured standard error. -/
theorem run_done_eq (sess : SessionExec) (f : Flags) (rc : RemoteCommand)
    (r : RunResult) (h : sess (rc.command ++ " & echo $!") true = .done r) :
    rc.run sess f =
      { state := { rc with result := some r },
        log := if f.print_statistic then ["Run command: " ++ rc.command] else [],
        ret := if r.ok then .ok () else .error (.remoteCommandException r.stderr none) } := by
  unfold RemoteCommand.run
  simp only [h]
  cases hok : r.ok <;> simp [hok]

/-- Reduction of `get_pid` when no result is stored. -/
theorem get_pid_none (f : Flags) (rc : RemoteCommand) (h : rc.result = none) :
    rc.get_pid f = { state := rc, log := [], ret := .error (.attributeError noneAttr) } := by
  unfold RemoteCommand.get_pid
  simp only [h]

/-- Reduction of `get_pid` when a result is stored and line 1 parses. -/
theorem get_pid_some_ok (f : Flags) (rc : RemoteCommand) (r : RunResult) (n : Int)
    (h : rc.result = some r) (hp : pyInt ((pySplitLines r.stdout).headD "") = some n) :
    rc.get_pid f =
      { state := rc,
        log := if f.print_statistic then
          ["PID of process: " ++ (pySplitLines r.stdout).headD ""] else [],
        ret := .ok n } := by
  unfold RemoteCommand.get_pid
  simp only [h, hp]

/-- Reduction of `get_pid` when a result is stored and line 1 does not
parse. -/
theorem get_pid_some_err (f : Flags) (rc : RemoteCommand) (r : RunResult)
    (h : rc.result = some r) (hp : pyInt ((pySplitLines r.stdout).headD "") = none) :
    rc.get_pid f =
      { state := rc,
        log := if f.print_statistic then
          ["PID of process: " ++ (pySplitLines r.stdout).headD ""] else [],
        ret := .error (.valueError
          ("invalid literal for int with base 10: " ++ (pySplitLines r.stdout).headD "")) } := by
  unfold RemoteCommand.get_pid
  simp only [h, hp]

/-- Reduction of `get_output` when a result is stored. -/
theorem get_output_some (f : Flags) (rc : RemoteCommand) (r : RunResult)
    (h : rc.result = some r) :
    rc.get_output f =
      { state := rc,
        log := if f.print_statistic then
          ["Execution output: " ++
            String.intercalate "\n" ((pySplitLines r.stdout).drop 1)] else [],
        ret := .ok (String.intercalate "\n" ((pySplitLines r.stdout).drop 1)) } := by
  unfold RemoteCommand.get_output
  simp only [h]

/-- Reduction of `get_output` when no result is stored. -/
theorem get_output_none (f : Flags) (rc : RemoteCommand) (h : rc.result = none) :
    rc.get_output f = { state := rc, log := [], ret := .error (.attributeError noneAttr) } := by
  unfold RemoteCommand.get_output
  simp only [h]

/-- Reduction of `get_exit_code` when a result is stored. -/
theorem get_exit_code_some (f : Flags) (rc : RemoteCommand) (r : RunResult)
    (h : rc.result = some r) :
    rc.get_exit_code f =
      { state := rc,
        log := if f.print_statistic then ["Result code: " ++ toString r.return_code] else [],
        ret := .ok r.return_code } := by
  unfold RemoteCommand.get_exit_code
  simp only [h]

/-- Reduction of `get_exit_code` when no result is stored. -/
theorem get_exit_code_none (f : Flags) (rc : RemoteCommand) (h : rc.result = none) :
    rc.get_exit_code f =
      { state := rc, log := [], ret := .error (.attributeError noneAttr) } := by
  unfold RemoteCommand.get_exit_code
  simp only [h]

/-- C7: `command`, `ssh_host`, `ssh_user` and `ssh_password` are never
mutated; `run` mutates at most `result`; `terminate` mutates at most `kill`;
the three accessors mutate nothing. -/
theorem frame_conditions (sess : SessionExec) (f : Flags) (rc : RemoteCommand) :
    ((rc.run sess f).state.command = rc.command ∧
      (rc.run sess f).state.ssh_host = rc.ssh_host ∧
      (rc.run sess f).state.ssh_user = rc.ssh_user ∧
      (rc.run sess f).state.ssh_password = rc.ssh_password ∧
      (rc.run sess f).state.kill = rc.kill) ∧
    ((rc.terminate sess f).state.command = rc.command ∧
      (rc.terminate sess f).state.ssh_host = rc.ssh_host ∧
      (rc.terminate sess f).state.ssh_user = rc.ssh_user ∧
      (rc.terminate sess f).state.ssh_password = rc.ssh_password ∧
      (rc.terminate sess f).state.result = rc.result) ∧
    ((rc.get_pid f).state = rc ∧ (rc.get_output f).state = rc ∧
      (rc.get_exit_code f).state = rc) := by
  refine ⟨?_, ?_, ?_⟩
  · rcases hs : sess (rc.command ++ " & echo $!") true with m | r
    · rw [run_fault_eq sess f rc m hs]
      exact ⟨rfl, rfl, rfl, rfl, rfl⟩
    · rw [run_done_eq sess f rc r hs]
      exact ⟨rfl, rfl, rfl, rfl, rfl⟩
  · rcases hp : (rc.get_pid f).ret with e | pid
    · rw [term_pid_error sess f rc e hp]
      exact ⟨rfl, rfl, rfl, rfl, rfl⟩
    · rcases hk : sess ("kill " ++ toString pid) true with m | k
      · rw [term_fault sess f rc pid m hp hk]
        exact ⟨rfl, rfl, rfl, rfl, rfl⟩
      · cases hko : k.ok with
        | false =>
            rw [term_kill_not_ok sess f rc pid k hp hk hko]
            exact ⟨rfl, rfl, rfl, rfl, rfl⟩
        | true =>
            rw [term_kill_ok sess f rc pid k hp hk hko]
            cases hps : f.print_statistic <;> simp [hps]
  · rcases hr : rc.result with _ | r
    · rw [get_pid_none f rc hr, get_output_none f rc hr, get_exit_code_none f rc hr]
      exact ⟨rfl, rfl, rfl⟩
    · rcases hpi : pyInt ((pySplitLines r.stdout).headD "") with _ | n
      · rw [get_pid_some_err f rc r hr hpi, get_output_some f rc r hr,
          get_exit_code_some f rc r hr]
        exact ⟨rfl, rfl, rfl⟩
      · rw [get_pid_some_ok f rc r n hr hpi, get_output_some f rc r hr,
          get_exit_code_some f rc r hr]
        exact ⟨rfl, rfl, rfl⟩

/-- C3: `run` returns nothing exactly when the collaborator completed the
wrapper invocation with success, and raises `RemoteCommandException` iff a
transport fault occurred (the error carrying the fault's message, with the
context chain kept only under `debug`) or the wrapper invocation completed
with non-success status (the error carrying the captured standard-error
text). -/
theorem run_error_iff (sess : SessionExec) (f : Flags) (rc : RemoteCommand) :
    ((rc.run sess f).ret = .ok () ↔
      ∃ r, sess (rc.command ++ " & echo $!") true = .done r ∧ r.ok = true) ∧
    ∀ e, ((rc.run sess f).ret = .error e ↔
      ((∃ msg, sess (rc.command ++ " & echo $!") true = .fault msg ∧
          e = .remoteCommandException msg (if f.debug then some msg else none)) ∨
       (∃ r, sess (rc.command ++ " & echo $!") true = .done r ∧ r.ok = false ∧
          e = .remoteCommandException r.stderr none))) := by
  rcases hs : sess (rc.command ++ " & echo $!") true with m | r
  · rw [run_fault_eq sess f rc m hs]
    simp only [hs]
    refine ⟨by simp, fun e => ⟨fun he => ?_, fun h => ?_⟩⟩
    · refine Or.inl ⟨m, rfl, ?_⟩
      have h2 : PyError.remoteCommandException m (if f.debug then some m else none) = e := by
        simpa using he
      exact h2.symm
    · rcases h with ⟨msg, hmsg, he⟩ | ⟨r2, hr2, _, _⟩
      · obtain rfl : m = msg := by simpa using hmsg
        subst he
        rfl
      · simp at hr2
  · rw [run_done_eq sess f rc r hs]
    simp only [hs]
    cases hok : r.ok with
    | true =>
        refine ⟨⟨fun _ => ⟨r, rfl, hok⟩, fun _ => by simp⟩, fun e => ⟨fun he => ?_, fun h => ?_⟩⟩
        · exact absurd he (by simp)
        · rcases h with ⟨msg, hmsg, _⟩ | ⟨r2, hr2, hok2, _⟩
          · simp at hmsg
          · obtain rfl : r = r2 := by simpa using hr2
            rw [hok] at hok2
            exact absurd hok2 (by simp)
    | false =>
        refine ⟨⟨fun he => ?_, fun h => ?_⟩, fun e => ⟨fun he => ?_, fun h => ?_⟩⟩
        · exact absurd he (by simp)
        · rcases h with ⟨r2, hr2, hok2⟩
          obtain rfl : r = r2 := by simpa using hr2
          rw [hok] at hok2
          exact absurd hok2 (by simp)
        · refine Or.inr ⟨r, rfl, hok, ?_⟩
          have h2 : PyError.remoteCommandException r.stderr none = e := by simpa using he
          exact h2.symm
        · rcases h with ⟨msg, hmsg, _⟩ | ⟨r2, hr2, _, he⟩
          · simp at hmsg
          · obtain rfl : r = r2 := by simpa using hr2
            subst he
            rfl

/-- C9: on the non-success branch `run` overwrites `self.result` with the
failed result before raising, so after such a failed run the accessors
operate on the failed run's captured data instead of failing with a
precondition error. -/
theorem run_nonatomic_failure (sess : SessionExec) (f : Flags) (rc : RemoteCommand)
    (r : RunResult) (hdone : sess (rc.command ++ " & echo $!") true = .done r)
    (hok : r.ok = false) :
    (rc.run sess f).ret = .error (.remoteCommandException r.stderr none) ∧
    (rc.run sess f).state.result = some r ∧
    ((rc.run sess f).state.get_exit_code f).ret = .ok r.return_code ∧
    ((rc.run sess f).state.get_output f).ret =
      .ok (String.intercalate "\n" ((pySplitLines r.stdout).drop 1)) := by
  have hr := run_done_eq sess f rc r hdone
  refine ⟨?_, ?_, ?_, ?_⟩
  · rw [hr]
    simp [hok]
  · rw [hr]
  · rw [hr, get_exit_code_some f { rc with result := some r } r rfl]
  · rw [hr, get_output_some f { rc with result := some r } r rfl]

/-- C6: when the kill command completes but reports non-success, the raised
exception carries the original run's captured standard-error text, not the
kill command's own standard-error text. -/
theorem terminate_kill_failure_stderr (sess : SessionExec) (f : Flags)
    (rc : RemoteCommand) (r k : RunResult) (pid : Int)
    (hres : rc.result = some r)
    (hpid : (rc.get_pid f).ret = .ok pid)
    (hkill : sess ("kill " ++ toString pid) true = .done k)
    (hko : k.ok = false) :
    (rc.terminate sess f).ret = .error (.remoteCommandException r.stderr none) := by
  rw [term_kill_not_ok sess f rc pid k hpid hkill hko, hres]
  rfl

/-- C10: when line 1 of the captured combined output is not a valid integer
literal, `get_pid` raises `ValueError` instead of returning a value, and
`terminate` (which re-derives the PID through `get_pid` before its `try`
block) fails identically, leaves the state unchanged, and never consults the
session — no kill command is issued. -/
theorem get_pid_parse_error (sess sess2 : SessionExec) (f : Flags)
    (rc : RemoteCommand) (r : RunResult) (hres : rc.result = some r)
    (hparse : pyInt ((pySplitLines r.stdout).headD "") = none) :
    (rc.get_pid f).ret =
      .error (.valueError
        ("invalid literal for int with base 10: " ++ (pySplitLines r.stdout).headD "")) ∧
    (rc.terminate sess f).ret =
      .error (.valueError
        ("invalid literal for int with base 10: " ++ (pySplitLines r.stdout).headD "")) ∧
    (rc.terminate sess f).state = rc ∧
    rc.terminate sess f = rc.terminate sess2 f := by
  have hp := get_pid_some_err f rc r hres hparse
  have hpr : (rc.get_pid f).ret =
      .error (.valueError
        ("invalid literal for int with base 10: " ++ (pySplitLines r.stdout).headD "")) := by
    rw [hp]
  have ht := term_pid_error sess f rc _ hpr
  have ht2 := term_pid_error sess2 f rc _ hpr
  refine ⟨hpr, ?_, ?_, ?_⟩
  · rw [ht]
  · rw [ht]
  · rw [ht, ht2]

/-- Splitting `a ++ "\x5cn" ++ b` on newlines yields `a` followed by the split
of `b`, stated over the embedded `pySplitLines`. -/
theorem pySplitLines_first (a b : String) (h : '\n' ∉ a.data) :
    pySplitLines (a ++ "\n" ++ b) = a :: pySplitLines b :=
  split_first a b h

/-- Rejoining the newline-split with newlines recovers the string, stated
over the embedded `pySplitLines`. -/
theorem intercalate_pySplit ( s : String) :
    String.intercalate "\n" (pySplitLines s) = s :=
  intercalate_split s

/-- C1: `run` consults the collaborator only at the wrapper invocation — the
stored command with `" & echo $!"` appended, submitted with output capture
hidden — and when the wrapper's combined output is a PID line followed by
the command's own output, `get_pid` afterwards parses exactly that PID from
line 1 and `get_output` returns exactly the command's own output. -/
theorem run_submits_wrapper (f : Flags) (rc : RemoteCommand) :
    (∀ sess sess2 : SessionExec,
      sess (rc.command ++ " & echo $!") true = sess2 (rc.command ++ " & echo $!") true →
      rc.run sess f = rc.run sess2 f) ∧
    (∀ (sess : SessionExec) (r : RunResult) (pidStr rest : String) (pid : Int),
      sess (rc.command ++ " & echo $!") true = .done r → r.ok = true →
      r.stdout = pidStr ++ "\n" ++ rest → '\n' ∉ pidStr.data → pyInt pidStr = some pid →
      (rc.run sess f).ret = .ok () ∧
      ((rc.run sess f).state.get_pid f).ret = .ok pid ∧
      ((rc.run sess f).state.get_output f).ret = .ok rest) := by
  constructor
  · intro sess sess2 hagree
    unfold RemoteCommand.run
    rw [hagree]
  · intro sess r pidStr rest pid hdone hok hsplit hnl hparse
    have hr := run_done_eq sess f rc r hdone
    have hlines : pySplitLines r.stdout = pidStr :: pySplitLines rest := by
      rw [hsplit]
      exact pySplitLines_first pidStr rest hnl
    have hp : pyInt ((pySplitLines r.stdout).headD "") = some pid := by
      rw [hlines]
      simpa using hparse
    refine ⟨?_, ?_, ?_⟩
    · rw [hr]
      simp [hok]
    · rw [hr, get_pid_some_ok f _ r pid rfl hp]
    · rw [hr, get_output_some f _ r rfl]
      simp only [hlines, List.drop_succ_cons, List.drop_zero]
      simp [intercalate_pySplit]

/-- C2 (amended): `get_output` returns all lines of the captured combined
output except line 1, rejoined with newlines — so the PID line (line 1) is
structurally excluded; and whenever the combined output has at least two
lines, which the wrapper's trailing `echo $!` newline guarantees in
practice, prepending the PID line and a newline reconstructs the combined
output exactly.  For a one-line combined output the reconstruction appends
a spurious trailing newline; see the counterexample. -/
theorem get_output_roundtrip_amended (f : Flags) (rc : RemoteCommand) (r : RunResult)
    (hres : rc.result = some r) :
    (rc.get_output f).ret =
      .ok (String.intercalate "\n" ((pySplitLines r.stdout).drop 1)) ∧
    (2 ≤ (pySplitLines r.stdout).length →
      (pySplitLines r.stdout).headD "" ++ "\n" ++
        String.intercalate "\n" ((pySplitLines r.stdout).drop 1) = r.stdout) := by
  refine ⟨by rw [get_output_some f rc r hres], fun hlen => ?_⟩
  rcases hl : pySplitLines r.stdout with _ | ⟨a, tail⟩
  · rw [hl] at hlen
    simp at hlen
  · rcases tail with _ | ⟨b, t⟩
    · rw [hl] at hlen
      simp at hlen
    · show a ++ "\n" ++ String.intercalate "\n" (b :: t) = r.stdout
      rw [← intercalate_cons a (b :: t) (by simp), ← hl]
      exact intercalate_pySplit r.stdout

/-- C2 (counterexample): a successful run whose captured combined output is
the single line "1234" with no trailing newline: `get_output()` returns the
empty string, and prepending the PID line and a newline yields a string
ending in a newline, which is not the original combined output. -/
theorem get_output_roundtrip_counterexample :
    (((⟨"true", "h", "u", none, none, none⟩ : RemoteCommand).run
        (fun _ _ => .done ⟨"1234", "", true, 0⟩) ⟨false, false⟩).ret = .ok ()) ∧
    ((((⟨"true", "h", "u", none, none, none⟩ : RemoteCommand).run
        (fun _ _ => .done ⟨"1234", "", true, 0⟩) ⟨false, false⟩).state.get_output
        ⟨false, false⟩).ret = .ok "") ∧
    "1234" ++ "\n" ++ "" ≠ "1234" := by
  have hsplit : pySplitLines "1234" = ["1234"] := by
    unfold pySplitLines
    rw [String.split_of_valid]
    decide
  have hr := run_done_eq (fun _ _ => .done ⟨"1234", "", true, 0⟩) ⟨false, false⟩
    ⟨"true", "h", "u", none, none, none⟩ ⟨"1234", "", true, 0⟩ rfl
  refine ⟨by rw [hr]; rfl, ?_, by decide⟩
  rw [hr, get_output_some ⟨false, false⟩ _ ⟨"1234", "", true, 0⟩ rfl, hsplit]
  rfl

/-- C4 (counterexample): run against a collaborator that completes the
wrapper with non-success (exit status 127): `run` raises, so no successful
run has occurred, yet `get_exit_code` afterwards returns the failed run's
exit status — a value, not a precondition error. -/
theorem accessors_precondition_counterexample :
    (((⟨"doesnotexist123", "h", "u", none, none, none⟩ : RemoteCommand).run
        (fun _ _ => .done ⟨"", "command not found", false, 127⟩) ⟨false, false⟩).ret =
      .error (.remoteCommandException "command not found" none)) ∧
    ((((⟨"doesnotexist123", "h", "u", none, none, none⟩ : RemoteCommand).run
        (fun _ _ => .done ⟨"", "command not found", false, 127⟩) ⟨false, false⟩).state.get_exit_code
        ⟨false, false⟩).ret = .ok 127) := by
  have hr := run_done_eq (fun _ _ => .done ⟨"", "command not found", false, 127⟩)
    ⟨false, false⟩ ⟨"doesnotexist123", "h", "u", none, none, none⟩
    ⟨"", "command not found", false, 127⟩ rfl
  refine ⟨by rw [hr]; rfl, ?_⟩
  rw [hr, get_exit_code_some ⟨false, false⟩ _ ⟨"", "command not found", false, 127⟩ rfl]

/-- C4 (amended): while `self.result` is still `None` — before any run, or
after a run that failed with a transport fault — `get_pid`, `get_output` and
`get_exit_code` all fail with an `AttributeError` and never return a value;
after a run that completed with non-success status, however, the accessors
operate on the failed run's stored data instead of failing (see the
counterexample and C9). -/
theorem accessors_precondition_amended (sess : SessionExec) (f : Flags)
    (rc : RemoteCommand) (hres : rc.result = none) :
    (rc.get_pid f).ret = .error (.attributeError noneAttr) ∧
    (rc.get_output f).ret = .error (.attributeError noneAttr) ∧
    (rc.get_exit_code f).ret = .error (.attributeError noneAttr) ∧
    (∀ m, sess (rc.command ++ " & echo $!") true = .fault m →
      (rc.run sess f).state.result = none) := by
  refine ⟨by rw [get_pid_none f rc hres], by rw [get_output_none f rc hres],
    by rw [get_exit_code_none f rc hres], fun m hm => ?_⟩
  rw [run_fault_eq sess f rc m hm]
  exact hres

/-- C5 (counterexample): terminating a freshly constructed command (no run
at all) fails — but with the `AttributeError` propagating out of `get_pid`
(which reads `self.result.stdout` while `self.result` is `None`), not with
the domain exception that the spec calls `TerminationError`
(`RemoteCommandException` in the source). -/
theorem terminate_before_run_counterexample :
    ((((RemoteCommand.init ⟨false, false⟩ "sleep 5" "h" "u" none).1).terminate
        (fun _ _ => .done ⟨"", "", true, 0⟩) ⟨false, false⟩).ret =
      .error (.attributeError noneAttr)) ∧
    isRemoteCommandException
      ((((RemoteCommand.init ⟨false, false⟩ "sleep 5" "h" "u" none).1).terminate
        (fun _ _ => .done ⟨"", "", true, 0⟩) ⟨false, false⟩).ret) = false := by
  have hpr : (((RemoteCommand.init ⟨false, false⟩ "sleep 5" "h" "u" none).1).get_pid
      ⟨false, false⟩).ret = .error (.attributeError noneAttr) := by
    rw [get_pid_none ⟨false, false⟩ _ rfl]
  have ht := term_pid_error (fun _ _ => .done ⟨"", "", true, 0⟩) ⟨false, false⟩ _ _ hpr
  refine ⟨by rw [ht], by rw [ht]; rfl⟩

/-- C5 (amended): calling `terminate` while no run has stored a result
always fails, but with the attribute error raised inside `get_pid` (because
`self.result` is `None`) rather than with the domain exception; the state is
left unchanged. -/
theorem terminate_before_run_amended (sess : SessionExec) (f : Flags)
    (rc : RemoteCommand) (hres : rc.result = none) :
    (rc.terminate sess f).ret = .error (.attributeError noneAttr) ∧
    isRemoteCommandException (rc.terminate sess f).ret = false ∧
    (rc.terminate sess f).state = rc := by
  have hpr : (rc.get_pid f).ret = .error (.attributeError noneAttr) := by
    rw [get_pid_none f rc hres]
  have ht := term_pid_error sess f rc _ hpr
  exact ⟨by rw [ht], by rw [ht]; rfl, by rw [ht]⟩

/-- C8 (code bug): on an object whose run captured PID line "123" and a
collaborator whose kill completes with success, `terminate` with narration
off returns successfully, while the identical call with `print_statistic`
on (verbosity at least 1) raises `TypeError`, because source line 155
concatenates a `str` with the `int` `self.kill.return_code`.  The verbosity
flag therefore changes whether an error is raised, contradicting the
claimed noninterference, which the rest of the code (and spec section 7)
clearly intends. -/
theorem verbosity_typeerror_bug :
    (((⟨"sleep 5", "h", "u", none, some ⟨"123" ++ "\n", "", true, 0⟩, none⟩ :
        RemoteCommand).terminate
        (fun _ _ => .done ⟨"", "", true, 0⟩) ⟨false, false⟩).ret = .ok ()) ∧
    (((⟨"sleep 5", "h", "u", none, some ⟨"123" ++ "\n", "", true, 0⟩, none⟩ :
        RemoteCommand).terminate
        (fun _ _ => .done ⟨"", "", true, 0⟩) ⟨false, true⟩).ret =
      .error (.typeError "can only concatenate str, not int, to str")) := by
  have hsplit : pySplitLines ("123" ++ "\n") = ["123", ""] := by
    unfold pySplitLines
    rw [String.split_of_valid]
    decide
  have hparse : pyInt ((pySplitLines ("123" ++ "\n")).headD "") = some 123 := by
    rw [hsplit]
    decide
  have hpr0 : ((⟨"sleep 5", "h", "u", none, some ⟨"123" ++ "\n", "", true, 0⟩, none⟩ :
      RemoteCommand).get_pid ⟨false, false⟩).ret = .ok 123 := by
    rw [get_pid_some_ok ⟨false, false⟩ _ ⟨"123" ++ "\n", "", true, 0⟩ 123 rfl hparse]
  have hpr1 : ((⟨"sleep 5", "h", "u", none, some ⟨"123" ++ "\n", "", true, 0⟩, none⟩ :
      RemoteCommand).get_pid ⟨false, true⟩).ret = .ok 123 := by
    rw [get_pid_some_ok ⟨false, true⟩ _ ⟨"123" ++ "\n", "", true, 0⟩ 123 rfl hparse]
  have ht0 := term_kill_ok (fun _ _ => .done ⟨"", "", true, 0⟩) ⟨false, false⟩ _ 123
    ⟨"", "", true, 0⟩ hpr0 rfl rfl
  have ht1 := term_kill_ok (fun _ _ => .done ⟨"", "", true, 0⟩) ⟨false, true⟩ _ 123
    ⟨"", "", true, 0⟩ hpr1 rfl rfl
  exact ⟨by rw [ht0]; rfl, by rw [ht1]; rfl⟩

/-- Witness for C1: command `echo hello`, collaborator answering with PID
line 42 followed by output `hello`. -/
theorem run_submits_wrapper_witness :
    ((⟨"echo hello", "h", "u", none, none, none⟩ : RemoteCommand).run
        (fun _ _ => .done ⟨"42" ++ "\n" ++ "hello", "", true, 0⟩) ⟨false, false⟩).ret =
      .ok () ∧
    (((⟨"echo hello", "h", "u", none, none, none⟩ : RemoteCommand).run
        (fun _ _ => .done ⟨"42" ++ "\n" ++ "hello", "", true, 0⟩) ⟨false, false⟩).state.get_pid
        ⟨false, false⟩).ret = .ok 42 ∧
    (((⟨"echo hello", "h", "u", none, none, none⟩ : RemoteCommand).run
        (fun _ _ => .done ⟨"42" ++ "\n" ++ "hello", "", true, 0⟩) ⟨false, false⟩).state.get_output
        ⟨false, false⟩).ret = .ok "hello" :=
  (run_submits_wrapper ⟨false, false⟩ ⟨"echo hello", "h", "u", none, none, none⟩).2
    (fun _ _ => .done ⟨"42" ++ "\n" ++ "hello", "", true, 0⟩)
    ⟨"42" ++ "\n" ++ "hello", "", true, 0⟩ "42" "hello" 42 rfl rfl rfl
    (by decide) (by decide)

/-- Witness for C2 (amended): combined output `42`, newline, `hello`. -/
theorem get_output_roundtrip_amended_witness :
    ((⟨"echo hello", "h", "u", none, some ⟨"42" ++ "\n" ++ "hello", "", true, 0⟩, none⟩ :
        RemoteCommand).get_output ⟨false, false⟩).ret =
      .ok (String.intercalate "\n" ((pySplitLines ("42" ++ "\n" ++ "hello")).drop 1)) ∧
    (pySplitLines ("42" ++ "\n" ++ "hello")).headD "" ++ "\n" ++
      String.intercalate "\n" ((pySplitLines ("42" ++ "\n" ++ "hello")).drop 1) =
      "42" ++ "\n" ++ "hello" := by
  have hsplit : pySplitLines ("42" ++ "\n" ++ "hello") = ["42", "hello"] := by
    unfold pySplitLines
    rw [String.split_of_valid]
    decide
  have h := get_output_roundtrip_amended ⟨false, false⟩
    ⟨"echo hello", "h", "u", none, some ⟨"42" ++ "\n" ++ "hello", "", true, 0⟩, none⟩
    ⟨"42" ++ "\n" ++ "hello", "", true, 0⟩ rfl
  exact ⟨h.1, h.2 (by rw [hsplit]; decide)⟩

/-- Witness for C3: a transport fault with `debug` on is re-raised as the
domain exception with message and context `boom`. -/
theorem run_error_iff_witness :
    ((⟨"echo hello", "h", "u", none, none, none⟩ : RemoteCommand).run
        (fun _ _ => .fault "boom") ⟨true, false⟩).ret =
      .error (.remoteCommandException "boom" (some "boom")) :=
  ((run_error_iff (fun _ _ => .fault "boom") ⟨true, false⟩
      ⟨"echo hello", "h", "u", none, none, none⟩).2
    (.remoteCommandException "boom" (some "boom"))).mpr (Or.inl ⟨"boom", rfl, rfl⟩)

/-- Witness for C4 (amended): a fresh object, and a transport-faulting
collaborator. -/
theorem accessors_precondition_amended_witness :
    ((⟨"echo hello", "h", "u", none, none, none⟩ : RemoteCommand).get_pid
        ⟨false, false⟩).ret = .error (.attributeError noneAttr) ∧
    ((⟨"echo hello", "h", "u", none, none, none⟩ : RemoteCommand).get_output
        ⟨false, false⟩).ret = .error (.attributeError noneAttr) ∧
    ((⟨"echo hello", "h", "u", none, none, none⟩ : RemoteCommand).get_exit_code
        ⟨false, false⟩).ret = .error (.attributeError noneAttr) ∧
    ((⟨"echo hello", "h", "u", none, none, none⟩ : RemoteCommand).run
        (fun _ _ => .fault "unreachable") ⟨false, false⟩).state.result = none := by
  have h := accessors_precondition_amended (fun _ _ => .fault "unreachable") ⟨false, false⟩
    ⟨"echo hello", "h", "u", none, none, none⟩ rfl
  exact ⟨h.1, h.2.1, h.2.2.1, h.2.2.2 "unreachable" rfl⟩

/-- Witness for C5 (amended): a fresh object and an always-succeeding
collaborator. -/
theorem terminate_before_run_amended_witness :
    ((⟨"sleep 5", "h", "u", none, none, none⟩ : RemoteCommand).terminate
        (fun _ _ => .done ⟨"", "", true, 0⟩) ⟨false, false⟩).ret =
      .error (.attributeError noneAttr) ∧
    isRemoteCommandException
      (((⟨"sleep 5", "h", "u", none, none, none⟩ : RemoteCommand).terminate
        (fun _ _ => .done ⟨"", "", true, 0⟩) ⟨false, false⟩).ret) = false ∧
    ((⟨"sleep 5", "h", "u", none, none, none⟩ : RemoteCommand).terminate
        (fun _ _ => .done ⟨"", "", true, 0⟩) ⟨false, false⟩).state =
      ⟨"sleep 5", "h", "u", none, none, none⟩ :=
  terminate_before_run_amended (fun _ _ => .done ⟨"", "", true, 0⟩) ⟨false, false⟩
    ⟨"sleep 5", "h", "u", none, none, none⟩ rfl

/-- Witness for C6: the stored run has standard error `original-error`, the
kill fails with its own standard error `kill-error`; the raise carries the
former. -/
theorem terminate_kill_failure_stderr_witness :
    ((⟨"sleep 5", "h", "u", none, some ⟨"77" ++ "\n", "original-error", true, 0⟩, none⟩ :
        RemoteCommand).terminate
        (fun _ _ => .done ⟨"", "kill-error", false, 1⟩) ⟨false, false⟩).ret =
      .error (.remoteCommandException "original-error" none) ∧
    (Except.error (PyError.remoteCommandException "original-error" none) :
        Except PyError Unit) ≠
      .error (.remoteCommandException "kill-error" none) := by
  have hsplit : pySplitLines ("77" ++ "\n") = ["77", ""] := by
    unfold pySplitLines
    rw [String.split_of_valid]
    decide
  have hparse : pyInt ((pySplitLines ("77" ++ "\n")).headD "") = some 77 := by
    rw [hsplit]
    decide
  have hpid : ((⟨"sleep 5", "h", "u", none, some ⟨"77" ++ "\n", "original-error", true, 0⟩,
      none⟩ : RemoteCommand).get_pid ⟨false, false⟩).ret = .ok 77 := by
    rw [get_pid_some_ok ⟨false, false⟩ _ ⟨"77" ++ "\n", "original-error", true, 0⟩ 77 rfl hparse]
  exact ⟨terminate_kill_failure_stderr (fun _ _ => .done ⟨"", "kill-error", false, 1⟩)
    ⟨false, false⟩ _ ⟨"77" ++ "\n", "original-error", true, 0⟩ ⟨"", "kill-error", false, 1⟩
    77 rfl hpid rfl rfl, by decide⟩

/-- Witness for C9: the wrapper completes with non-success (status 127,
standard error `nope`); the accessors then see the failed data. -/
theorem run_nonatomic_failure_witness :
    ((⟨"doesnotexist123", "h", "u", none, none, none⟩ : RemoteCommand).run
        (fun _ _ => .done ⟨"", "nope", false, 127⟩) ⟨false, false⟩).ret =
      .error (.remoteCommandException "nope" none) ∧
    ((⟨"doesnotexist123", "h", "u", none, none, none⟩ : RemoteCommand).run
        (fun _ _ => .done ⟨"", "nope", false, 127⟩) ⟨false, false⟩).state.result =
      some ⟨"", "nope", false, 127⟩ ∧
    (((⟨"doesnotexist123", "h", "u", none, none, none⟩ : RemoteCommand).run
        (fun _ _ => .done ⟨"", "nope", false, 127⟩) ⟨false, false⟩).state.get_exit_code
        ⟨false, false⟩).ret = .ok 127 ∧
    (((⟨"doesnotexist123", "h", "u", none, none, none⟩ : RemoteCommand).run
        (fun _ _ => .done ⟨"", "nope", false, 127⟩) ⟨false, false⟩).state.get_output
        ⟨false, false⟩).ret =
      .ok (String.intercalate "\n" ((pySplitLines "").drop 1)) :=
  run_nonatomic_failure (fun _ _ => .done ⟨"", "nope", false, 127⟩) ⟨false, false⟩
    ⟨"doesnotexist123", "h", "u", none, none, none⟩ ⟨"", "nope", false, 127⟩ rfl rfl

/-- Witness for C10: combined output whose first line is `abc`; two
different collaborators observe the same failing terminate. -/
theorem get_pid_parse_error_witness :
    ((⟨"sleep 5", "h", "u", none, some ⟨"abc" ++ "\n" ++ "x", "", true, 0⟩, none⟩ :
        RemoteCommand).get_pid ⟨false, false⟩).ret =
      .error (.valueError ("invalid literal for int with base 10: " ++
        (pySplitLines ("abc" ++ "\n" ++ "x")).headD "")) ∧
    ((⟨"sleep 5", "h", "u", none, some ⟨"abc" ++ "\n" ++ "x", "", true, 0⟩, none⟩ :
        RemoteCommand).terminate (fun _ _ => .done ⟨"", "", true, 0⟩) ⟨false, false⟩).ret =
      .error (.valueError ("invalid literal for int with base 10: " ++
        (pySplitLines ("abc" ++ "\n" ++ "x")).headD "")) ∧
    ((⟨"sleep 5", "h", "u", none, some ⟨"abc" ++ "\n" ++ "x", "", true, 0⟩, none⟩ :
        RemoteCommand).terminate (fun _ _ => .done ⟨"", "", true, 0⟩) ⟨false, false⟩).state =
      ⟨"sleep 5", "h", "u", none, some ⟨"abc" ++ "\n" ++ "x", "", true, 0⟩, none⟩ ∧
    (⟨"sleep 5", "h", "u", none, some ⟨"abc" ++ "\n" ++ "x", "", true, 0⟩, none⟩ :
        RemoteCommand).terminate (fun _ _ => .done ⟨"", "", true, 0⟩) ⟨false, false⟩ =
      (⟨"sleep 5", "h", "u", none, some ⟨"abc" ++ "\n" ++ "x", "", true, 0⟩, none⟩ :
        RemoteCommand).terminate (fun _ _ => .fault "down") ⟨false, false⟩ := by
  have hsplit : pySplitLines ("abc" ++ "\n" ++ "x") = ["abc", "x"] := by
    unfold pySplitLines
    rw [String.split_of_valid]
    decide
  have hparse : pyInt ((pySplitLines ("abc" ++ "\n" ++ "x")).headD "") = none := by
    rw [hsplit]
    decide
  exact get_pid_parse_error (fun _ _ => .done ⟨"", "", true, 0⟩) (fun _ _ => .fault "down")
    ⟨false, false⟩ ⟨"sleep 5", "h", "u", none, some ⟨"abc" ++ "\n" ++ "x", "", true, 0⟩, none⟩
    ⟨"abc" ++ "\n" ++ "x", "", true, 0⟩ rfl hparse
